import Mathlib

/-!
Shallow embedding of the gPXE InfiniBand General Management Agent
(`src/net/infiniband/ib_gma.c`).

The GMA keeps a collection of outstanding MAD requests, each with a copy
of its MAD, a destination address vector and a retry timer.  Inbound MADs
are validated, matched by transaction id against outstanding requests,
dispatched through a static handler table, and (when a response method
remains) sent back; directed-route subnet-management packets additionally
receive return-path bookkeeping.  Transport and allocation outcomes
(`alloc_iob`, `ib_post_send`) are external collaborators and are modelled
as boolean oracles passed to each operation.
-/

namespace IbGma

/-- Modelled from the spec: fixed total MAD message size (`sizeof ( union
ib_mad )`), from the InfiniBand management headers which are not part of
the provided sources.  MADs are 256 bytes. -/
def IB_MAD_SIZE : Nat := 256

/-- Modelled from the spec: supported MAD base version
(`IB_MGMT_BASE_VERSION`, from the missing `ib_mad.h`). -/
def IB_MGMT_BASE_VERSION : Nat := 1

/-- Modelled from the spec: trap method code (`IB_MGMT_METHOD_TRAP`, from
the missing `ib_mad.h`). -/
def IB_MGMT_METHOD_TRAP : Nat := 5

/-- Modelled from the spec: management class of directed-route
subnet-management packets (`IB_MGMT_CLASS_SUBN_DIRECTED_ROUTE`, from the
missing `ib_mad.h`). -/
def IB_MGMT_CLASS_SUBN_DIRECTED_ROUTE : Nat := 129

/-- Modelled from the spec: the "unsupported method/attribute" MAD status
code (`IB_MGMT_STATUS_UNSUPPORTED_METHOD_ATTR`, from the missing
`ib_mad.h`). -/
def IB_MGMT_STATUS_UNSUPPORTED_METHOD_ATTR : Nat := 28

/-- Modelled from the spec: the inbound-direction status bit of
directed-route SMPs (`IB_SMP_STATUS_D_INBOUND`, from the missing
`ib_mad.h`). -/
def IB_SMP_STATUS_D_INBOUND : Nat := 32768

/-- Modelled from the spec: number of entries of the fixed-size
return-path hop array of a directed-route SMP
(`sizeof ( smp->return_path.hops ) / sizeof ( smp->return_path.hops[0] )`,
from the missing `ib_mad.h`). -/
def IB_SMP_RETURN_PATH_LEN : Nat := 64

/-- Modelled from the spec: well-known subnet-management queue pair number
(`IB_QPN_SMA`, from the missing `infiniband.h`). -/
def IB_QPN_SMA : Nat := 0

/-- Modelled from the spec: subnet-management queue key (`IB_QKEY_SMA`). -/
def IB_QKEY_SMA : Nat := 0

/-- Modelled from the spec: general-service queue pair number
(`IB_QPN_GMA`). -/
def IB_QPN_GMA : Nat := 1

/-- Modelled from the spec: general-service queue key (`IB_QKEY_GMA`). -/
def IB_QKEY_GMA : Nat := 2147549184

/-- Modelled from the spec: fixed baseline rate (`IB_RATE_2_5`). -/
def IB_RATE_2_5 : Nat := 2

/-- GMA TID magic signature: `( 'g' << 24 ) | ( 'P' << 16 ) | ( 'X' << 8 ) | 'E'`. -/
def IB_GMA_TID_MAGIC : Nat := 103 * 16777216 + 80 * 65536 + 88 * 256 + 69

/-- Errno value for `ENOTSUP` (exact value immaterial to the model). -/
def ENOTSUP : Int := 95

/-- Errno value for `ENOMEM` (exact value immaterial to the model). -/
def ENOMEM : Int := 12

/-- Host-to-network byte order for a 16-bit value, on the little-endian
hosts gPXE targets: swap the two bytes. -/
def htons (x : Nat) : Nat := (x % 256) * 256 + (x / 256) % 256

/-- Network-to-host byte order for a 16-bit value (same byte swap). -/
def ntohs (x : Nat) : Nat := htons x

/-- Host-to-network byte order for a 32-bit value, on the little-endian
hosts gPXE targets: reverse the four bytes. -/
def htonl (x : Nat) : Nat :=
  (x % 256) * 16777216 + ((x / 256) % 256) * 65536 +
    ((x / 65536) % 256) * 256 + (x / 16777216) % 256

/-- Network-to-host byte order for a 32-bit value (same byte reversal). -/
def ntohl (x : Nat) : Nat := htonl x

/-- Modelled from the spec: the common MAD header (`struct ib_mad_hdr`,
from the missing `ib_mad.h`): base version, management class, class
version, method, status, the class-specific field viewed as the
directed-route hop pointer and hop count, the 64-bit transaction id as
its two stored 32-bit words, and the attribute id.  Multi-byte fields
hold the value as stored on the wire (network byte order). -/
structure IbMadHdr where
  base_version : Nat
  mgmt_class : Nat
  class_version : Nat
  method : Nat
  status : Nat
  hop_pointer : Nat
  hop_count : Nat
  tid0 : Nat
  tid1 : Nat
  attr_id : Nat
  deriving DecidableEq, Repr

/-- Modelled from the spec: a full fixed-size MAD (`union ib_mad`): the
header, the directed-route return-path hop array (`smp->return_path.hops`)
and the remaining class-specific body bytes. -/
structure UnionIbMad where
  hdr : IbMadHdr
  return_path_hops : List Nat
  body : List Nat
  deriving DecidableEq, Repr

/-- Modelled from the spec: an address vector (`struct ib_address_vector`,
from the missing `infiniband.h`): local identifier, service level,
queue-pair number, queue key and rate. -/
structure IbAddressVector where
  lid : Nat
  sl : Nat
  qpn : Nat
  qkey : Nat
  rate : Nat
  deriving DecidableEq, Repr

/-- A retry timer (`struct retry_timer`): only its armed/disarmed state is
relevant to the GMA. -/
structure RetryTimer where
  running : Bool
  deriving DecidableEq, Repr

/-- `start_timer` / `start_timer_nodelay`: arm the timer. -/
def start_timer (_ : RetryTimer) : RetryTimer := { running := true }

/-- `stop_timer`: disarm the timer. -/
def stop_timer (_ : RetryTimer) : RetryTimer := { running := false }

/-- A MAD request (`struct ib_mad_request`): destination address, the
stored copy of the MAD, and the retry timer.  Membership in the agent's
`requests` list models the `list` field. -/
structure IbMadRequest where
  av : IbAddressVector
  mad : UnionIbMad
  timer : RetryTimer
  deriving DecidableEq, Repr

/-- The slice of `struct ib_device` the GMA reads: port number,
subnet-manager lid and service level. -/
structure IbDevice where
  port : Nat
  sm_lid : Nat
  sm_sl : Nat
  deriving DecidableEq, Repr

/-- A MAD handler table entry (`struct ib_mad_handler`): the registered
4-tuple, the response method, and the handling function (which receives
the device and the message and returns the mutated message with a status
code). -/
structure IbMadHandler where
  mgmt_class : Nat
  class_version : Nat
  method : Nat
  attr_id : Nat
  resp_method : Nat
  handle : IbDevice → UnionIbMad → UnionIbMad × Int

/-- `ib_handle_mad`: walk the handler table; on the first entry whose
4-tuple (management class, class version, method, attribute id) equals
the header's, overwrite the method with the entry's response method and
invoke its handler.  If no entry matches, force the method to the trap
method, set the status to "unsupported method/attribute" in network byte
order, and fail with `-ENOTSUP`. -/
def ib_handle_mad : List IbMadHandler → IbDevice → UnionIbMad → UnionIbMad × Int
  | [], _, mad =>
    ({ mad with hdr := { mad.hdr with
        method := IB_MGMT_METHOD_TRAP,
        status := htons IB_MGMT_STATUS_UNSUPPORTED_METHOD_ATTR } }, -ENOTSUP)
  | handler :: rest, ibdev, mad =>
    if handler.mgmt_class = mad.hdr.mgmt_class ∧
        handler.class_version = mad.hdr.class_version ∧
        handler.method = mad.hdr.method ∧
        handler.attr_id = mad.hdr.attr_id then
      handler.handle ibdev
        { mad with hdr := { mad.hdr with method := handler.resp_method } }
    else
      ib_handle_mad rest ibdev mad

/-- The request-dequeue loop of `ib_gma_complete_recv` (lines 154-163):
scan the outstanding list for the first request whose stored 8-byte
transaction id (`memcmp` over both 32-bit words) equals the inbound
header's; stop its timer, unlink it and return it. -/
def ib_gma_dequeue_request (hdr : IbMadHdr) :
    List IbMadRequest → List IbMadRequest × Option IbMadRequest
  | [] => ([], none)
  | request :: rest =>
    if request.mad.hdr.tid0 = hdr.tid0 ∧ request.mad.hdr.tid1 = hdr.tid1 then
      (rest, some { request with timer := stop_timer request.timer })
    else
      let res := ib_gma_dequeue_request hdr rest
      (request :: res.1, res.2)

/-- Result of a receive completion: the updated outstanding collection,
the retired request (if an inbound transaction id matched), whether the
handler table was consulted, the response handed to `ib_post_send`
(destination address vector and buffer content) when submission
succeeded, and the content of the I/O buffer at the point it was
released without a successful transmission (`none` when ownership passed
to the transport). -/
structure RecvResult where
  requests : List IbMadRequest
  retired : Option IbMadRequest
  handlerConsulted : Bool
  tx : Option (IbAddressVector × UnionIbMad)
  freed : Option UnionIbMad
  deriving Repr

/-- `ib_gma_complete_recv`: validate (completion status, buffer length,
base version), dequeue a matching outstanding request, dispatch through
the handler table (a handler failure is logged but does not abort),
suppress the response when the resulting method is zero, perform
directed-route return-path bookkeeping (discarding on an out-of-bounds
hop pointer), construct the return address, and post the response.
`sendOk` is the oracle for the outcome of `ib_post_send`; on failure the
buffer is released (it was disowned to the transport) and no retry is
scheduled.  The C function returns `void`: no error is ever propagated to
a caller. -/
def ib_gma_complete_recv (handlers : List IbMadHandler) (ibdev : IbDevice)
    (requests : List IbMadRequest) (av : IbAddressVector)
    (iobuf_len : Nat) (mad : UnionIbMad) (rc : Int) (sendOk : Bool) :
    RecvResult :=
  if rc ≠ 0 then
    { requests := requests, retired := none, handlerConsulted := false,
      tx := none, freed := some mad }
  else if iobuf_len ≠ IB_MAD_SIZE then
    { requests := requests, retired := none, handlerConsulted := false,
      tx := none, freed := some mad }
  else if mad.hdr.base_version ≠ IB_MGMT_BASE_VERSION then
    { requests := requests, retired := none, handlerConsulted := false,
      tx := none, freed := some mad }
  else
    let deq := ib_gma_dequeue_request mad.hdr requests
    let mad1 := (ib_handle_mad handlers ibdev mad).1
    if mad1.hdr.method = 0 then
      { requests := deq.1, retired := deq.2, handlerConsulted := true,
        tx := none, freed := some mad1 }
    else if mad1.hdr.mgmt_class = IB_MGMT_CLASS_SUBN_DIRECTED_ROUTE then
      let mad2 := { mad1 with hdr := { mad1.hdr with
        status := mad1.hdr.status ||| htons IB_SMP_STATUS_D_INBOUND } }
      if mad2.hdr.hop_pointer < IB_SMP_RETURN_PATH_LEN then
        let mad3 := { mad2 with return_path_hops :=
          mad2.return_path_hops.set mad2.hdr.hop_pointer ibdev.port }
        let av1 := { av with
          qkey := if av.qpn = IB_QPN_SMA then IB_QKEY_SMA else IB_QKEY_GMA,
          rate := IB_RATE_2_5 }
        if sendOk then
          { requests := deq.1, retired := deq.2, handlerConsulted := true,
            tx := some (av1, mad3), freed := none }
        else
          { requests := deq.1, retired := deq.2, handlerConsulted := true,
            tx := none, freed := some mad3 }
      else
        { requests := deq.1, retired := deq.2, handlerConsulted := true,
          tx := none, freed := some mad2 }
    else
      let av1 := { av with
        qkey := if av.qpn = IB_QPN_SMA then IB_QKEY_SMA else IB_QKEY_GMA,
        rate := IB_RATE_2_5 }
      if sendOk then
        { requests := deq.1, retired := deq.2, handlerConsulted := true,
          tx := some (av1, mad1), freed := none }
      else
        { requests := deq.1, retired := deq.2, handlerConsulted := true,
          tx := none, freed := some mad1 }

/-- Result of a timer expiry: the updated outstanding collection, the
(address vector, MAD) pair handed to `ib_post_send` (if an I/O buffer was
allocated), and whether the freshly allocated I/O buffer was freed after
a failed submission. -/
structure ExpiryResult where
  requests : List IbMadRequest
  submitted : Option (IbAddressVector × UnionIbMad)
  iobufFreed : Bool
  deriving Repr

/-- `ib_gma_timer_expired`: the expiry callback for the request at index
`i` of the outstanding collection.  If retries are exhausted the request
is unlinked and released with no transmission attempt.  Otherwise the
retry timer is restarted, an I/O buffer is allocated (`allocOk` oracle; a
failure leaves the request pending for the next expiry), the stored MAD
is copied into it bit for bit, and it is posted to the stored destination
address (`sendOk` oracle; a failure frees the buffer and leaves the
request pending). -/
def ib_gma_timer_expired (requests : List IbMadRequest) (i : Nat)
    (expired allocOk sendOk : Bool) : ExpiryResult :=
  match requests[i]? with
  | none => { requests := requests, submitted := none, iobufFreed := false }
  | some request =>
    if expired then
      { requests := requests.eraseIdx i, submitted := none,
        iobufFreed := false }
    else
      let requests1 := requests.set i
        { request with timer := start_timer request.timer }
      if allocOk then
        if sendOk then
          { requests := requests1, submitted := some (request.av, request.mad),
            iobufFreed := false }
        else
          { requests := requests1, submitted := some (request.av, request.mad),
            iobufFreed := true }
      else
        { requests := requests1, submitted := none, iobufFreed := false }

/-- `n` consecutive non-exhausted timer expirations for the request at
index `i`, with allocation and submission succeeding each time;
accumulates the successive submissions. -/
def ib_gma_expire_n (requests : List IbMadRequest) (i : Nat) :
    Nat → List IbMadRequest × List (IbAddressVector × UnionIbMad)
  | 0 => (requests, [])
  | n + 1 =>
    let res := ib_gma_timer_expired requests i false true true
    let rest := ib_gma_expire_n res.requests i n
    (rest.1, res.submitted.toList ++ rest.2)

/-- Result of issuing a MAD request: the updated outstanding collection,
the new value of the shared `next_request_tid` counter, the return status
code, and the caller-owned MAD and address-vector buffers as they stand
after the call (the function only reads them). -/
structure RequestResult where
  requests : List IbMadRequest
  next_tid : Nat
  rc : Int
  caller_mad : UnionIbMad
  caller_av : Option IbAddressVector
  deriving Repr

/-- `ib_gma_request`: allocate a request record (`allocOk` oracle;
failure returns `-ENOMEM` and leaves the agent unaffected), link it at
the head of the outstanding collection, copy the caller's address vector
(or default to the subnet manager, the remaining fields zero from
`zalloc`), copy the caller's MAD into the record, then overwrite the
record's transaction id words with the magic signature and the
pre-incremented shared 32-bit counter (both stored via `htonl`), and arm
the timer with no delay.  `next_tid` threads the global
`next_request_tid`, an `unsigned int`, so the increment wraps at `2^32`. -/
def ib_gma_request (ibdev : IbDevice) (requests : List IbMadRequest)
    (next_tid : Nat) (mad : UnionIbMad) (av : Option IbAddressVector)
    (allocOk : Bool) : RequestResult :=
  if allocOk then
    let reqAv : IbAddressVector :=
      match av with
      | some a => a
      | none =>
        { lid := ibdev.sm_lid, sl := ibdev.sm_sl,
          qpn := IB_QPN_GMA, qkey := IB_QKEY_GMA, rate := 0 }
    let tid := (next_tid + 1) % 4294967296
    let request : IbMadRequest :=
      { av := reqAv,
        mad := { mad with hdr := { mad.hdr with
          tid0 := htonl IB_GMA_TID_MAGIC, tid1 := htonl tid } },
        timer := { running := true } }
    { requests := request :: requests, next_tid := tid, rc := 0,
      caller_mad := mad, caller_av := av }
  else
    { requests := requests, next_tid := next_tid, rc := -ENOMEM,
      caller_mad := mad, caller_av := av }

/-! Concrete fixtures used by witnesses. -/

/-- Example MAD header used in witnesses. -/
def exHdr : IbMadHdr :=
  { base_version := 1, mgmt_class := 1, class_version := 1, method := 1,
    status := 0, hop_pointer := 0, hop_count := 0,
    tid0 := 7, tid1 := 9, attr_id := 17 }

/-- Example MAD used in witnesses. -/
def exMad : UnionIbMad :=
  { hdr := exHdr, return_path_hops := List.replicate 64 0, body := [1, 2, 3] }

/-- Example address vector used in witnesses. -/
def exAv : IbAddressVector :=
  { lid := 3, sl := 0, qpn := 5, qkey := 11, rate := 0 }

/-- Example outstanding request used in witnesses. -/
def exReq : IbMadRequest :=
  { av := exAv, mad := exMad, timer := { running := false } }

/-- Example device used in witnesses. -/
def exDev : IbDevice := { port := 1, sm_lid := 2, sm_sl := 0 }

/-- Example request agreeing with `exMad` only in the low transaction-id
word (different magic high word). -/
def exReqLowOnly : IbMadRequest :=
  { av := exAv, mad := { exMad with hdr := { exHdr with tid0 := 8 } },
    timer := { running := true } }

/-- Example handler table entry matching `exMad`'s 4-tuple. -/
def exHandler : IbMadHandler :=
  { mgmt_class := 1, class_version := 1, method := 1, attr_id := 17,
    resp_method := 2, handle := fun _ m => (m, 0) }

/-- Example directed-route SMP with an in-bounds hop pointer. -/
def exMadDR : UnionIbMad :=
  { hdr :=
      { base_version := 1, mgmt_class := 129, class_version := 1,
        method := 1, status := 0, hop_pointer := 3, hop_count := 3,
        tid0 := 7, tid1 := 9, attr_id := 17 },
    return_path_hops := List.replicate 64 0, body := [] }

/-- `exMadDR` after dispatch through an empty handler table (trap method,
unsupported status). -/
def exTrapDR : UnionIbMad :=
  { exMadDR with hdr := { exMadDR.hdr with
      method := IB_MGMT_METHOD_TRAP,
      status := htons IB_MGMT_STATUS_UNSUPPORTED_METHOD_ATTR } }

/-- Example directed-route SMP with an out-of-bounds hop pointer. -/
def exMadDROOB : UnionIbMad :=
  { hdr :=
      { base_version := 1, mgmt_class := 129, class_version := 1,
        method := 1, status := 0, hop_pointer := 64, hop_count := 64,
        tid0 := 7, tid1 := 9, attr_id := 17 },
    return_path_hops := List.replicate 64 0, body := [] }

/-- `exMadDROOB` after dispatch through an empty handler table. -/
def exTrapDROOB : UnionIbMad :=
  { exMadDROOB with hdr := { exMadDROOB.hdr with
      method := IB_MGMT_METHOD_TRAP,
      status := htons IB_MGMT_STATUS_UNSUPPORTED_METHOD_ATTR } }

/-! Helper lemmas. -/

/-- Setting index `i` of a list and reading it back yields the new value
when `i` is in bounds. -/
theorem getElem_set_self_of_lt {α : Type} (l : List α) (i : Nat) (a : α)
    (h : i < l.length) : (l.set i a)[i]? = some a := by
  simp [List.getElem?_set_self, h]

/-- One non-exhausted, fully successful timer expiry: the timer is
restarted and the stored MAD is submitted to the stored destination. -/
theorem timer_expired_retransmit (reqs : List IbMadRequest) (i : Nat)
    (r : IbMadRequest) (h : reqs[i]? = some r) :
    ib_gma_timer_expired reqs i false true true =
      { requests := reqs.set i { r with timer := { running := true } },
        submitted := some (r.av, r.mad), iobufFreed := false } := by
  simp [ib_gma_timer_expired, h, start_timer]

/-- `n ≥ 1` consecutive successful non-exhausted expirations submit the
stored MAD `n` times and leave the request in place with its timer
armed. -/
theorem expire_n_spec : ∀ (n : Nat) (reqs : List IbMadRequest) (i : Nat)
    (r : IbMadRequest), reqs[i]? = some r → 1 ≤ n →
    ib_gma_expire_n reqs i n =
      (reqs.set i { r with timer := { running := true } },
       List.replicate n (r.av, r.mad))
  | 1, reqs, i, r, h, _ => by
    simp [ib_gma_expire_n, timer_expired_retransmit reqs i r h]
  | n + 2, reqs, i, r, h, _ => by
    have hlt : i < reqs.length := (List.getElem?_eq_some.mp h).1
    have h2 : (reqs.set i { r with timer := { running := true } })[i]? =
        some { r with timer := { running := true } } :=
      getElem_set_self_of_lt reqs i _ hlt
    have ih := expire_n_spec (n + 1)
      (reqs.set i { r with timer := { running := true } }) i
      { r with timer := { running := true } } h2 (by omega)
    have hexp := timer_expired_retransmit reqs i r h
    have step : ib_gma_expire_n reqs i (n + 2) =
        ((ib_gma_expire_n
            (ib_gma_timer_expired reqs i false true true).requests i
            (n + 1)).1,
         (ib_gma_timer_expired reqs i false true true).submitted.toList ++
           (ib_gma_expire_n
             (ib_gma_timer_expired reqs i false true true).requests i
             (n + 1)).2) := rfl
    rw [step, hexp]
    simp [ih, List.set_set, List.replicate_succ]

/-- C1: on timer expiry of an outstanding request, the retries-exhausted
flag makes the callback unlink and release the request with no
transmission attempt; otherwise the timer is rearmed and a bit-identical
copy of the stored MAD is submitted to the stored destination with the
request remaining outstanding, so `n` consecutive non-exhausted
expirations yield `n` identical submissions; an allocation or submission
failure still leaves the request outstanding with its timer armed. -/
theorem ib_gma_timer_expired_c1 (reqs : List IbMadRequest) (i n : Nat)
    (r : IbMadRequest) (h : reqs[i]? = some r) :
    (∀ allocOk sendOk, ib_gma_timer_expired reqs i true allocOk sendOk =
      { requests := reqs.eraseIdx i, submitted := none,
        iobufFreed := false }) ∧
    ib_gma_timer_expired reqs i false true true =
      { requests := reqs.set i { r with timer := { running := true } },
        submitted := some (r.av, r.mad), iobufFreed := false } ∧
    (∀ sendOk, ib_gma_timer_expired reqs i false false sendOk =
      { requests := reqs.set i { r with timer := { running := true } },
        submitted := none, iobufFreed := false }) ∧
    ib_gma_timer_expired reqs i false true false =
      { requests := reqs.set i { r with timer := { running := true } },
        submitted := some (r.av, r.mad), iobufFreed := true } ∧
    (ib_gma_expire_n reqs i n).2 = List.replicate n (r.av, r.mad) ∧
    (1 ≤ n → (ib_gma_expire_n reqs i n).1 =
      reqs.set i { r with timer := { running := true } }) := by
  refine ⟨?_, timer_expired_retransmit reqs i r h, ?_, ?_, ?_, ?_⟩
  · intro allocOk sendOk
    simp [ib_gma_timer_expired, h]
  · intro sendOk
    simp [ib_gma_timer_expired, h, start_timer]
  · simp [ib_gma_timer_expired, h, start_timer]
  · match n with
    | 0 => rfl
    | m + 1 => simp [expire_n_spec (m + 1) reqs i r h (by omega)]
  · intro hn
    match n, hn with
    | m + 1, _ => simp [expire_n_spec (m + 1) reqs i r h (by omega)]

/-- Witness for C1 at a concrete request: an exhausted expiry removes the
request without submission, and three successful non-exhausted expiries
submit the stored MAD three times. -/
theorem ib_gma_timer_expired_c1_witness :
    ib_gma_timer_expired [exReq] 0 true true true =
      { requests := [], submitted := none, iobufFreed := false } ∧
    (ib_gma_expire_n [exReq] 0 3).2 =
      List.replicate 3 (exReq.av, exReq.mad) ∧
    (ib_gma_expire_n [exReq] 0 3).1 =
      [{ exReq with timer := { running := true } }] := by
  have h := ib_gma_timer_expired_c1 [exReq] 0 3 exReq rfl
  exact ⟨h.1 true true, h.2.2.2.2.1, h.2.2.2.2.2 (by omega)⟩

/-- If no outstanding request's stored 8-byte transaction id equals the
inbound header's, the dequeue scan leaves the collection unchanged and
retires nothing. -/
theorem dequeue_no_match (hdr : IbMadHdr) : ∀ (reqs : List IbMadRequest),
    (∀ r ∈ reqs,
      ¬ (r.mad.hdr.tid0 = hdr.tid0 ∧ r.mad.hdr.tid1 = hdr.tid1)) →
    ib_gma_dequeue_request hdr reqs = (reqs, none)
  | [], _ => rfl
  | q :: rest, h => by
    have hq := h q (by simp)
    have hr := dequeue_no_match hdr rest (fun r hrr => h r (by simp [hrr]))
    simp [ib_gma_dequeue_request, hq, hr]

/-- If some outstanding request's stored transaction id equals the
inbound header's, the dequeue scan removes exactly the first matching
request and returns it with its timer stopped. -/
theorem dequeue_match (hdr : IbMadHdr) : ∀ (reqs : List IbMadRequest),
    (∃ r ∈ reqs, r.mad.hdr.tid0 = hdr.tid0 ∧ r.mad.hdr.tid1 = hdr.tid1) →
    ∃ pre req post, reqs = pre ++ req :: post ∧
      req.mad.hdr.tid0 = hdr.tid0 ∧ req.mad.hdr.tid1 = hdr.tid1 ∧
      ib_gma_dequeue_request hdr reqs =
        (pre ++ post, some { req with timer := { running := false } })
  | [], h => absurd h (by simp)
  | q :: rest, h => by
    by_cases hq : q.mad.hdr.tid0 = hdr.tid0 ∧ q.mad.hdr.tid1 = hdr.tid1
    · exact ⟨[], q, rest, rfl, hq.1, hq.2,
        by simp [ib_gma_dequeue_request, hq, stop_timer]⟩
    · have hrest : ∃ r ∈ rest,
          r.mad.hdr.tid0 = hdr.tid0 ∧ r.mad.hdr.tid1 = hdr.tid1 := by
        rcases h with ⟨r, hr, hm⟩
        rcases List.mem_cons.mp hr with rfl | hr'
        · exact absurd hm hq
        · exact ⟨r, hr', hm⟩
      rcases dequeue_match hdr rest hrest with ⟨pre, req, post, heq, h1, h2, hres⟩
      exact ⟨q :: pre, req, post, by simp [heq], h1, h2,
        by simp [ib_gma_dequeue_request, hq, hres]⟩

/-- A request the dequeue scan retires was an outstanding request whose
stored transaction id equals the inbound header's in both 32-bit words,
and it is returned with its timer stopped. -/
theorem dequeue_retired_match (hdr : IbMadHdr) :
    ∀ (reqs : List IbMadRequest) (rr : IbMadRequest),
    (ib_gma_dequeue_request hdr reqs).2 = some rr →
    ∃ req ∈ reqs, req.mad.hdr.tid0 = hdr.tid0 ∧
      req.mad.hdr.tid1 = hdr.tid1 ∧
      rr = { req with timer := { running := false } }
  | [], rr, h => by simp [ib_gma_dequeue_request] at h
  | q :: rest, rr, h => by
    by_cases hq : q.mad.hdr.tid0 = hdr.tid0 ∧ q.mad.hdr.tid1 = hdr.tid1
    · simp [ib_gma_dequeue_request, hq, stop_timer] at h
      exact ⟨q, by simp, hq.1, hq.2, h.symm⟩
    · simp only [ib_gma_dequeue_request, if_neg hq] at h
      rcases dequeue_retired_match hdr rest rr h with ⟨req, hmem, h1, h2, h3⟩
      exact ⟨req, by simp [hmem], h1, h2, h3⟩

/-- On a validated receive (success status, correct length, supported
base version), the resulting outstanding collection and retired request
are exactly those produced by the transaction-id dequeue scan, on every
subsequent branch of the processing. -/
theorem recv_valid_proj (handlers : List IbMadHandler) (ibdev : IbDevice)
    (reqs : List IbMadRequest) (av : IbAddressVector) (mad : UnionIbMad)
    (sendOk : Bool) (hver : mad.hdr.base_version = IB_MGMT_BASE_VERSION) :
    (ib_gma_complete_recv handlers ibdev reqs av IB_MAD_SIZE mad 0
        sendOk).requests = (ib_gma_dequeue_request mad.hdr reqs).1 ∧
    (ib_gma_complete_recv handlers ibdev reqs av IB_MAD_SIZE mad 0
        sendOk).retired = (ib_gma_dequeue_request mad.hdr reqs).2 := by
  unfold ib_gma_complete_recv
  simp only [hver]
  constructor <;> · repeat' first
                    | rfl
                    | (exact absurd rfl (by assumption))
                    | split

/-- C2: a validated inbound MAD whose transaction id equals that of some
outstanding request causes exactly one such request (the first match) to
be unlinked and released, its retry timer stopped before release; a
validated inbound MAD matching no outstanding request leaves the
outstanding collection unchanged. -/
theorem ib_gma_complete_recv_c2 (handlers : List IbMadHandler)
    (ibdev : IbDevice) (reqs : List IbMadRequest) (av : IbAddressVector)
    (mad : UnionIbMad) (sendOk : Bool)
    (hver : mad.hdr.base_version = IB_MGMT_BASE_VERSION) :
    ((∃ r ∈ reqs,
        r.mad.hdr.tid0 = mad.hdr.tid0 ∧ r.mad.hdr.tid1 = mad.hdr.tid1) →
      ∃ pre req post, reqs = pre ++ req :: post ∧
        req.mad.hdr.tid0 = mad.hdr.tid0 ∧
        req.mad.hdr.tid1 = mad.hdr.tid1 ∧
        (ib_gma_complete_recv handlers ibdev reqs av IB_MAD_SIZE mad 0
          sendOk).requests = pre ++ post ∧
        (ib_gma_complete_recv handlers ibdev reqs av IB_MAD_SIZE mad 0
          sendOk).retired =
            some { req with timer := { running := false } }) ∧
    ((∀ r ∈ reqs,
        ¬ (r.mad.hdr.tid0 = mad.hdr.tid0 ∧
           r.mad.hdr.tid1 = mad.hdr.tid1)) →
      (ib_gma_complete_recv handlers ibdev reqs av IB_MAD_SIZE mad 0
        sendOk).requests = reqs ∧
      (ib_gma_complete_recv handlers ibdev reqs av IB_MAD_SIZE mad 0
        sendOk).retired = none) := by
  have proj := recv_valid_proj handlers ibdev reqs av mad sendOk hver
  constructor
  · intro hex
    rcases dequeue_match mad.hdr reqs hex with
      ⟨pre, req, post, heq, h1, h2, hres⟩
    exact ⟨pre, req, post, heq, h1, h2,
      by rw [proj.1, hres], by rw [proj.2, hres]⟩
  · intro hall
    have hnm := dequeue_no_match mad.hdr reqs hall
    exact ⟨by rw [proj.1, hnm], by rw [proj.2, hnm]⟩

/-- Witness for C2 at a concrete agent state: an inbound MAD whose
transaction id matches the single outstanding request retires it (timer
stopped), leaving the collection empty. -/
theorem ib_gma_complete_recv_c2_witness :
    ∃ pre req post, [exReq] = pre ++ req :: post ∧
      req.mad.hdr.tid0 = exMad.hdr.tid0 ∧
      req.mad.hdr.tid1 = exMad.hdr.tid1 ∧
      (ib_gma_complete_recv [] exDev [exReq] exAv IB_MAD_SIZE exMad 0
        true).requests = pre ++ post ∧
      (ib_gma_complete_recv [] exDev [exReq] exAv IB_MAD_SIZE exMad 0
        true).retired =
          some { req with timer := { running := false } } := by
  have h := ib_gma_complete_recv_c2 [] exDev [exReq] exAv exMad true rfl
  exact h.1 ⟨exReq, by simp, rfl, rfl⟩

/-- C10: the dequeue scan retires an outstanding request only when all
eight bytes of its stored transaction id (both the magic high word and
the counter low word) equal the inbound header's; if every outstanding
request differs from the inbound MAD in the high word, nothing is
retired even when low words agree. -/
theorem ib_gma_complete_recv_c10 (handlers : List IbMadHandler)
    (ibdev : IbDevice) (reqs : List IbMadRequest) (av : IbAddressVector)
    (mad : UnionIbMad) (sendOk : Bool)
    (hver : mad.hdr.base_version = IB_MGMT_BASE_VERSION) :
    (∀ rr, (ib_gma_complete_recv handlers ibdev reqs av IB_MAD_SIZE mad 0
        sendOk).retired = some rr →
      ∃ req ∈ reqs, req.mad.hdr.tid0 = mad.hdr.tid0 ∧
        req.mad.hdr.tid1 = mad.hdr.tid1 ∧
        rr = { req with timer := { running := false } }) ∧
    ((∀ r ∈ reqs, r.mad.hdr.tid0 ≠ mad.hdr.tid0) →
      (ib_gma_complete_recv handlers ibdev reqs av IB_MAD_SIZE mad 0
        sendOk).requests = reqs ∧
      (ib_gma_complete_recv handlers ibdev reqs av IB_MAD_SIZE mad 0
        sendOk).retired = none) := by
  have proj := recv_valid_proj handlers ibdev reqs av mad sendOk hver
  constructor
  · intro rr hrr
    rw [proj.2] at hrr
    exact dequeue_retired_match mad.hdr reqs rr hrr
  · intro hall
    have hnm := dequeue_no_match mad.hdr reqs
      (fun r hr hand => hall r hr hand.1)
    exact ⟨by rw [proj.1, hnm], by rw [proj.2, hnm]⟩

/-- Witness for C10: an outstanding request agreeing with the inbound MAD
only in the low transaction-id word retires nothing. -/
theorem ib_gma_complete_recv_c10_witness :
    (ib_gma_complete_recv [] exDev [exReqLowOnly] exAv IB_MAD_SIZE exMad 0
      true).requests = [exReqLowOnly] ∧
    (ib_gma_complete_recv [] exDev [exReqLowOnly] exAv IB_MAD_SIZE exMad 0
      true).retired = none := by
  have h := ib_gma_complete_recv_c10 [] exDev [exReqLowOnly] exAv exMad
    true rfl
  exact h.2 (by intro r hr; simp at hr; subst hr; decide)

/-- If no handler table entry's 4-tuple equals the header's, dispatch
forces the trap method, sets the unsupported-method/attribute status in
network byte order, and fails with `-ENOTSUP`. -/
theorem ib_handle_mad_no_match (ibdev : IbDevice) (mad : UnionIbMad) :
    ∀ (handlers : List IbMadHandler),
    (∀ e ∈ handlers, ¬ (e.mgmt_class = mad.hdr.mgmt_class ∧
        e.class_version = mad.hdr.class_version ∧
        e.method = mad.hdr.method ∧ e.attr_id = mad.hdr.attr_id)) →
    ib_handle_mad handlers ibdev mad =
      ({ mad with hdr := { mad.hdr with
          method := IB_MGMT_METHOD_TRAP,
          status := htons IB_MGMT_STATUS_UNSUPPORTED_METHOD_ATTR } },
       -ENOTSUP)
  | [], _ => rfl
  | e :: rest, h => by
    have he := h e (by simp)
    have hr := ib_handle_mad_no_match ibdev mad rest
      (fun x hx => h x (by simp [hx]))
    simp [ib_handle_mad, he, hr]

/-- If some handler table entry matches the header's 4-tuple, dispatch
rewrites the method to a matching entry's response method and invokes
that entry's handler on the message. -/
theorem ib_handle_mad_match (ibdev : IbDevice) (mad : UnionIbMad) :
    ∀ (handlers : List IbMadHandler),
    (∃ e ∈ handlers, e.mgmt_class = mad.hdr.mgmt_class ∧
        e.class_version = mad.hdr.class_version ∧
        e.method = mad.hdr.method ∧ e.attr_id = mad.hdr.attr_id) →
    ∃ e ∈ handlers, (e.mgmt_class = mad.hdr.mgmt_class ∧
        e.class_version = mad.hdr.class_version ∧
        e.method = mad.hdr.method ∧ e.attr_id = mad.hdr.attr_id) ∧
      ib_handle_mad handlers ibdev mad =
        e.handle ibdev
          { mad with hdr := { mad.hdr with method := e.resp_method } }
  | [], h => absurd h (by simp)
  | e :: rest, h => by
    by_cases he : e.mgmt_class = mad.hdr.mgmt_class ∧
        e.class_version = mad.hdr.class_version ∧
        e.method = mad.hdr.method ∧ e.attr_id = mad.hdr.attr_id
    · exact ⟨e, by simp, he, by simp [ib_handle_mad, he]⟩
    · have hrest : ∃ x ∈ rest, x.mgmt_class = mad.hdr.mgmt_class ∧
          x.class_version = mad.hdr.class_version ∧
          x.method = mad.hdr.method ∧ x.attr_id = mad.hdr.attr_id := by
        rcases h with ⟨x, hx, hm⟩
        rcases List.mem_cons.mp hx with rfl | hx'
        · exact absurd hm he
        · exact ⟨x, hx', hm⟩
      rcases ib_handle_mad_match ibdev mad rest hrest with ⟨x, hx, hm, hres⟩
      exact ⟨x, by simp [hx], hm, by simp [ib_handle_mad, he, hres]⟩

/-- C3: for every inbound MAD whose (management class, class version,
method, attribute id) 4-tuple equals that of some handler table entry,
dispatch overwrites the header's method with that entry's response
method and invokes that entry's handler on the message. -/
theorem ib_handle_mad_c3 (handlers : List IbMadHandler) (ibdev : IbDevice)
    (mad : UnionIbMad)
    (h : ∃ e ∈ handlers, e.mgmt_class = mad.hdr.mgmt_class ∧
        e.class_version = mad.hdr.class_version ∧
        e.method = mad.hdr.method ∧ e.attr_id = mad.hdr.attr_id) :
    ∃ e ∈ handlers, (e.mgmt_class = mad.hdr.mgmt_class ∧
        e.class_version = mad.hdr.class_version ∧
        e.method = mad.hdr.method ∧ e.attr_id = mad.hdr.attr_id) ∧
      ib_handle_mad handlers ibdev mad =
        e.handle ibdev
          { mad with hdr := { mad.hdr with method := e.resp_method } } :=
  ib_handle_mad_match ibdev mad handlers h

/-- Witness for C3: a concrete one-entry table whose 4-tuple matches the
example MAD. -/
theorem ib_handle_mad_c3_witness :
    ∃ e ∈ [exHandler], (e.mgmt_class = exMad.hdr.mgmt_class ∧
        e.class_version = exMad.hdr.class_version ∧
        e.method = exMad.hdr.method ∧ e.attr_id = exMad.hdr.attr_id) ∧
      ib_handle_mad [exHandler] exDev exMad =
        e.handle exDev
          { exMad with hdr :=
            { exMad.hdr with method := e.resp_method } } :=
  ib_handle_mad_c3 [exHandler] exDev exMad
    ⟨exHandler, by simp, rfl, rfl, rfl, rfl⟩

/-- C4: a validated inbound MAD whose 4-tuple matches no handler table
entry has its method forced to the trap method and its status set to the
unsupported-method/attribute code in network byte order, and processing
still produces and transmits a response (the dispatch failure is not
fatal). -/
theorem ib_gma_complete_recv_c4 (handlers : List IbMadHandler)
    (ibdev : IbDevice) (reqs : List IbMadRequest) (av : IbAddressVector)
    (mad : UnionIbMad)
    (hver : mad.hdr.base_version = IB_MGMT_BASE_VERSION)
    (hnm : ∀ e ∈ handlers, ¬ (e.mgmt_class = mad.hdr.mgmt_class ∧
        e.class_version = mad.hdr.class_version ∧
        e.method = mad.hdr.method ∧ e.attr_id = mad.hdr.attr_id))
    (hhop : mad.hdr.mgmt_class = IB_MGMT_CLASS_SUBN_DIRECTED_ROUTE →
        mad.hdr.hop_pointer < IB_SMP_RETURN_PATH_LEN) :
    ib_handle_mad handlers ibdev mad =
      ({ mad with hdr := { mad.hdr with
          method := IB_MGMT_METHOD_TRAP,
          status := htons IB_MGMT_STATUS_UNSUPPORTED_METHOD_ATTR } },
       -ENOTSUP) ∧
    ∃ av1 mad1,
      (ib_gma_complete_recv handlers ibdev reqs av IB_MAD_SIZE mad 0
        true).tx = some (av1, mad1) ∧
      mad1.hdr.method = IB_MGMT_METHOD_TRAP ∧
      (mad1.hdr.status = htons IB_MGMT_STATUS_UNSUPPORTED_METHOD_ATTR ∨
       mad1.hdr.status = htons IB_MGMT_STATUS_UNSUPPORTED_METHOD_ATTR |||
         htons IB_SMP_STATUS_D_INBOUND) := by
  have hh := ib_handle_mad_no_match ibdev mad handlers hnm
  refine ⟨hh, ?_⟩
  unfold ib_gma_complete_recv
  simp only [hver, hh, IB_MGMT_METHOD_TRAP, IB_MAD_SIZE,
    IB_MGMT_BASE_VERSION, ne_eq, reduceIte]
  by_cases hdr1 : mad.hdr.mgmt_class = IB_MGMT_CLASS_SUBN_DIRECTED_ROUTE
  · have hlt := hhop hdr1
    simp [hdr1, hlt]
    exact ⟨_, _, ⟨rfl, rfl⟩, rfl, Or.inr rfl⟩
  · simp [hdr1]
    exact ⟨_, _, ⟨rfl, rfl⟩, rfl, Or.inl rfl⟩

/-- Witness for C4: a MAD whose 4-tuple matches nothing in an empty
handler table gets a trap response transmitted. -/
theorem ib_gma_complete_recv_c4_witness :
    ib_handle_mad [] exDev exMad =
      ({ exMad with hdr := { exMad.hdr with
          method := IB_MGMT_METHOD_TRAP,
          status := htons IB_MGMT_STATUS_UNSUPPORTED_METHOD_ATTR } },
       -ENOTSUP) ∧
    ∃ av1 mad1,
      (ib_gma_complete_recv [] exDev [] exAv IB_MAD_SIZE exMad 0
        true).tx = some (av1, mad1) ∧
      mad1.hdr.method = IB_MGMT_METHOD_TRAP ∧
      (mad1.hdr.status = htons IB_MGMT_STATUS_UNSUPPORTED_METHOD_ATTR ∨
       mad1.hdr.status = htons IB_MGMT_STATUS_UNSUPPORTED_METHOD_ATTR |||
         htons IB_SMP_STATUS_D_INBOUND) :=
  ib_gma_complete_recv_c4 [] exDev [] exAv exMad rfl (by simp)
    (by intro h; simp [exMad, exHdr, IB_MGMT_CLASS_SUBN_DIRECTED_ROUTE] at h)

/-- C5: for a to-be-responded MAD of the directed-route
subnet-management class, processing sets the inbound-direction status
bit; when the hop pointer read from the class-specific header is below
the length of the fixed-size return-path array, the device's local port
number is written at that index and the response is transmitted; when
the hop pointer is at or beyond the array length, the buffer is
discarded with no write to the return-path array. -/
theorem ib_gma_complete_recv_c5 (handlers : List IbMadHandler)
    (ibdev : IbDevice) (reqs : List IbMadRequest) (av : IbAddressVector)
    (mad mad1 : UnionIbMad) (rc1 : Int)
    (hver : mad.hdr.base_version = IB_MGMT_BASE_VERSION)
    (hh : ib_handle_mad handlers ibdev mad = (mad1, rc1))
    (hm : mad1.hdr.method ≠ 0)
    (hc : mad1.hdr.mgmt_class = IB_MGMT_CLASS_SUBN_DIRECTED_ROUTE) :
    (mad1.hdr.hop_pointer < IB_SMP_RETURN_PATH_LEN →
      (ib_gma_complete_recv handlers ibdev reqs av IB_MAD_SIZE mad 0
        true).tx = some
          ({ av with qkey := if av.qpn = IB_QPN_SMA then IB_QKEY_SMA
              else IB_QKEY_GMA, rate := IB_RATE_2_5 },
           { mad1 with
              hdr := { mad1.hdr with status :=
                mad1.hdr.status ||| htons IB_SMP_STATUS_D_INBOUND },
              return_path_hops :=
                mad1.return_path_hops.set mad1.hdr.hop_pointer
                  ibdev.port }) ∧
      (ib_gma_complete_recv handlers ibdev reqs av IB_MAD_SIZE mad 0
        true).freed = none) ∧
    (IB_SMP_RETURN_PATH_LEN ≤ mad1.hdr.hop_pointer →
      (ib_gma_complete_recv handlers ibdev reqs av IB_MAD_SIZE mad 0
        true).tx = none ∧
      (ib_gma_complete_recv handlers ibdev reqs av IB_MAD_SIZE mad 0
        true).freed = some { mad1 with
          hdr := { mad1.hdr with status :=
            mad1.hdr.status ||| htons IB_SMP_STATUS_D_INBOUND } }) := by
  constructor
  · intro hlt
    unfold ib_gma_complete_recv
    simp [hver, hh, hm, hc, hlt]
  · intro hge
    have hnlt : ¬ mad1.hdr.hop_pointer < IB_SMP_RETURN_PATH_LEN := by omega
    unfold ib_gma_complete_recv
    simp [hver, hh, hm, hc, hnlt]

/-- Witness for C5: with hop pointer 3 the local port is written at index
3 of the return path and the response is sent; with hop pointer 64 (the
array length) the buffer is discarded with the hop array untouched. -/
theorem ib_gma_complete_recv_c5_witness :
    ((ib_gma_complete_recv [] exDev [] exAv IB_MAD_SIZE exMadDR 0
      true).tx = some
        ({ exAv with qkey := if exAv.qpn = IB_QPN_SMA then IB_QKEY_SMA
            else IB_QKEY_GMA, rate := IB_RATE_2_5 },
         { exTrapDR with
            hdr := { exTrapDR.hdr with status :=
              exTrapDR.hdr.status ||| htons IB_SMP_STATUS_D_INBOUND },
            return_path_hops :=
              exTrapDR.return_path_hops.set exTrapDR.hdr.hop_pointer
                exDev.port }) ∧
     (ib_gma_complete_recv [] exDev [] exAv IB_MAD_SIZE exMadDR 0
      true).freed = none) ∧
    ((ib_gma_complete_recv [] exDev [] exAv IB_MAD_SIZE exMadDROOB 0
      true).tx = none ∧
     (ib_gma_complete_recv [] exDev [] exAv IB_MAD_SIZE exMadDROOB 0
      true).freed = some { exTrapDROOB with
        hdr := { exTrapDROOB.hdr with status :=
          exTrapDROOB.hdr.status ||| htons IB_SMP_STATUS_D_INBOUND } }) := by
  have h1 := ib_gma_complete_recv_c5 [] exDev [] exAv exMadDR exTrapDR
    (-ENOTSUP) rfl rfl (by decide) rfl
  have h2 := ib_gma_complete_recv_c5 [] exDev [] exAv exMadDROOB
    exTrapDROOB (-ENOTSUP) rfl rfl (by decide) rfl
  exact ⟨h1.1 (by decide), h2.2 (by decide)⟩

/-- C6: when the transport rejects submission of a response MAD, nothing
is transmitted, the response buffer is released, and no retransmission is
set up: the outstanding collection is exactly what the transaction-id
dequeue left (no request is added or armed for the response). -/
theorem ib_gma_complete_recv_c6 (handlers : List IbMadHandler)
    (ibdev : IbDevice) (reqs : List IbMadRequest) (av : IbAddressVector)
    (mad mad1 : UnionIbMad) (rc1 : Int)
    (hver : mad.hdr.base_version = IB_MGMT_BASE_VERSION)
    (hh : ib_handle_mad handlers ibdev mad = (mad1, rc1))
    (hm : mad1.hdr.method ≠ 0)
    (hhop : mad1.hdr.mgmt_class = IB_MGMT_CLASS_SUBN_DIRECTED_ROUTE →
        mad1.hdr.hop_pointer < IB_SMP_RETURN_PATH_LEN) :
    (ib_gma_complete_recv handlers ibdev reqs av IB_MAD_SIZE mad 0
      false).tx = none ∧
    (∃ m, (ib_gma_complete_recv handlers ibdev reqs av IB_MAD_SIZE mad 0
      false).freed = some m) ∧
    (ib_gma_complete_recv handlers ibdev reqs av IB_MAD_SIZE mad 0
      false).requests = (ib_gma_dequeue_request mad.hdr reqs).1 := by
  unfold ib_gma_complete_recv
  by_cases hc : mad1.hdr.mgmt_class = IB_MGMT_CLASS_SUBN_DIRECTED_ROUTE
  · have hlt := hhop hc
    simp [hver, hh, hm, hc, hlt]
  · simp [hver, hh, hm, hc]

/-- Witness for C6: a concrete response whose submission fails is not
transmitted, its buffer is freed, and the (empty) outstanding collection
is unchanged. -/
theorem ib_gma_complete_recv_c6_witness :
    (ib_gma_complete_recv [] exDev [] exAv IB_MAD_SIZE exMad 0
      false).tx = none ∧
    (∃ m, (ib_gma_complete_recv [] exDev [] exAv IB_MAD_SIZE exMad 0
      false).freed = some m) ∧
    (ib_gma_complete_recv [] exDev [] exAv IB_MAD_SIZE exMad 0
      false).requests = (ib_gma_dequeue_request exMad.hdr []).1 := by
  have h := ib_gma_complete_recv_c6 [] exDev [] exAv exMad
    { exMad with hdr := { exMad.hdr with
        method := IB_MGMT_METHOD_TRAP,
        status := htons IB_MGMT_STATUS_UNSUPPORTED_METHOD_ATTR } }
    (-ENOTSUP) rfl rfl (by decide) (by intro hc; simp [exMad, exHdr,
      IB_MGMT_CLASS_SUBN_DIRECTED_ROUTE] at hc)
  exact h

/-- C7: a receive completion with an error status, a buffer whose length
differs from the fixed MAD size, or an unsupported base version is
discarded whole: the outstanding collection is untouched, the handler
table is not consulted, nothing is transmitted, the buffer is released
with its content intact, and (the C callback returning `void`) no error
reaches any caller. -/
theorem ib_gma_complete_recv_c7 (handlers : List IbMadHandler)
    (ibdev : IbDevice) (reqs : List IbMadRequest) (av : IbAddressVector)
    (len : Nat) (mad : UnionIbMad) (rc : Int) (sendOk : Bool)
    (h : rc ≠ 0 ∨ len ≠ IB_MAD_SIZE ∨
        mad.hdr.base_version ≠ IB_MGMT_BASE_VERSION) :
    ib_gma_complete_recv handlers ibdev reqs av len mad rc sendOk =
      { requests := reqs, retired := none, handlerConsulted := false,
        tx := none, freed := some mad } := by
  unfold ib_gma_complete_recv
  rcases h with h | h | h
  · simp [h]
  · by_cases hrc : rc ≠ 0
    · simp [hrc]
    · simp [hrc, h]
  · by_cases hrc : rc ≠ 0
    · simp [hrc]
    · by_cases hlen : len ≠ IB_MAD_SIZE
      · simp [hrc, hlen]
      · simp [hrc, hlen, h]

/-- Witness for C7: a 10-byte buffer is discarded with no retire, no
dispatch and no transmission. -/
theorem ib_gma_complete_recv_c7_witness :
    ib_gma_complete_recv [] exDev [exReq] exAv 10 exMad 0 true =
      { requests := [exReq], retired := none, handlerConsulted := false,
        tx := none, freed := some exMad } :=
  ib_gma_complete_recv_c7 [] exDev [exReq] exAv 10 exMad 0 true
    (Or.inr (Or.inl (by decide)))

/-- Byte-reversing a 32-bit value made of four bytes swaps the bytes. -/
theorem htonl_bytes (b0 b1 b2 b3 : Nat) (h0 : b0 < 256) (h1 : b1 < 256)
    (h2 : b2 < 256) (h3 : b3 < 256) :
    htonl (b0 * 16777216 + b1 * 65536 + b2 * 256 + b3) =
      b3 * 16777216 + b2 * 65536 + b1 * 256 + b0 := by
  unfold htonl
  omega

/-- Byte-reversing a 32-bit value twice is the identity. -/
theorem ntohl_htonl (x : Nat) (h : x < 4294967296) :
    ntohl (htonl x) = x := by
  have hb := htonl_bytes (x % 256) (x / 256 % 256) (x / 65536 % 256)
    (x / 16777216 % 256) (Nat.mod_lt _ (by omega)) (Nat.mod_lt _ (by omega))
    (Nat.mod_lt _ (by omega)) (Nat.mod_lt _ (by omega))
  show htonl (htonl x) = x
  have hx : htonl x = x % 256 * 16777216 + x / 256 % 256 * 65536 +
      x / 65536 % 256 * 256 + x / 16777216 % 256 := rfl
  rw [hx, hb]
  have e1 : x / 256 / 256 = x / 65536 := by
    rw [Nat.div_div_eq_div_mul]
  have e2 : x / 65536 / 256 = x / 16777216 := by
    rw [Nat.div_div_eq_div_mul]
  omega

/-- C8 (amended): issuing a request stores the magic signature in the
transaction id's high word and the shared 32-bit counter, incremented
modulo `2^32`, in the low word; two requests issued in sequence (on any
agents) receive distinct transaction ids, and the low word is strictly
increasing as long as the counter does not wrap. -/
theorem ib_gma_request_c8_amended (ibdev : IbDevice)
    (reqs reqs2 : List IbMadRequest) (ctr : Nat) (mad : UnionIbMad)
    (av : Option IbAddressVector) :
    ∃ r1 r2 : IbMadRequest,
      (ib_gma_request ibdev reqs ctr mad av true).requests = r1 :: reqs ∧
      (ib_gma_request ibdev reqs ctr mad av true).next_tid =
        (ctr + 1) % 4294967296 ∧
      r1.mad.hdr.tid0 = htonl IB_GMA_TID_MAGIC ∧
      ntohl r1.mad.hdr.tid1 = (ctr + 1) % 4294967296 ∧
      (ib_gma_request ibdev reqs2 ((ctr + 1) % 4294967296) mad av
        true).requests = r2 :: reqs2 ∧
      r2.mad.hdr.tid0 = htonl IB_GMA_TID_MAGIC ∧
      ntohl r2.mad.hdr.tid1 = (ctr + 2) % 4294967296 ∧
      r1.mad.hdr.tid1 ≠ r2.mad.hdr.tid1 ∧
      (ctr + 2 < 4294967296 →
        ntohl r1.mad.hdr.tid1 < ntohl r2.mad.hdr.tid1) := by
  have hM : (0:Nat) < 4294967296 := by omega
  have h1 : (ctr + 1) % 4294967296 < 4294967296 := Nat.mod_lt _ hM
  have h2 : ((ctr + 1) % 4294967296 + 1) % 4294967296 < 4294967296 :=
    Nat.mod_lt _ hM
  refine ⟨_, _, rfl, rfl, rfl, ntohl_htonl _ h1, rfl, rfl, ?_, ?_, ?_⟩
  · show ntohl (htonl (((ctr + 1) % 4294967296 + 1) % 4294967296)) =
      (ctr + 2) % 4294967296
    rw [ntohl_htonl _ h2]
    omega
  · intro heq
    have h3 : ntohl (htonl ((ctr + 1) % 4294967296)) =
        ntohl (htonl (((ctr + 1) % 4294967296 + 1) % 4294967296)) :=
      congrArg ntohl heq
    rw [ntohl_htonl _ h1, ntohl_htonl _ h2] at h3
    omega
  · intro hlt
    show ntohl (htonl ((ctr + 1) % 4294967296)) <
      ntohl (htonl (((ctr + 1) % 4294967296 + 1) % 4294967296))
    rw [ntohl_htonl _ h1, ntohl_htonl _ h2]
    omega

/-- Counterexample to C8 as stated: issuing from counter state
`2^32 - 2` yields low word `2^32 - 1`, and the next issue yields low
word `0`, which is not greater — the low word is not strictly increasing
across consecutive issues because the 32-bit counter wraps. -/
theorem ib_gma_request_c8_counterexample :
    ((ib_gma_request exDev [] 4294967294 exMad none true).requests.map
      (fun q => ntohl q.mad.hdr.tid1) = [4294967295]) ∧
    ((ib_gma_request exDev
        (ib_gma_request exDev [] 4294967294 exMad none true).requests
        (ib_gma_request exDev [] 4294967294 exMad none true).next_tid
        exMad none true).requests.map (fun q => ntohl q.mad.hdr.tid1) =
      [0, 4294967295]) ∧
    ¬ (4294967295 < 0) := by
  refine ⟨?_, ?_, by omega⟩ <;> rfl

/-- C9: issuing a request leaves the caller-supplied MAD and address
vector byte-for-byte unchanged on both the success and the
allocation-failure path; the freshly assigned transaction id is written
only into the request record's private copy of the MAD. -/
theorem ib_gma_request_c9 (ibdev : IbDevice) (reqs : List IbMadRequest)
    (ctr : Nat) (mad : UnionIbMad) (av : Option IbAddressVector)
    (allocOk : Bool) :
    (ib_gma_request ibdev reqs ctr mad av allocOk).caller_mad = mad ∧
    (ib_gma_request ibdev reqs ctr mad av allocOk).caller_av = av ∧
    (allocOk = true → ∃ req,
      (ib_gma_request ibdev reqs ctr mad av allocOk).requests =
        req :: reqs ∧
      req.mad = { mad with hdr := { mad.hdr with
        tid0 := htonl IB_GMA_TID_MAGIC,
        tid1 := htonl ((ctr + 1) % 4294967296) } }) := by
  cases allocOk
  · exact ⟨rfl, rfl, fun h => by simp at h⟩
  · exact ⟨rfl, rfl, fun _ => ⟨_, rfl, rfl⟩⟩

end IbGma
